import Mathlib

/-!
Verification development for the advanced knowledge-graph HTTP client
(src/examples/python/advanced_client.py).

The Python source is shallowly embedded: floats become rationals, dicts
become association lists in insertion order, exceptions become an error
sum type, and the asynchronous transport becomes an explicit script — a
list of per-attempt HTTP outcomes consumed one element per physical
attempt.  The tenacity retry decorator and the recursive rate-limit
resubmission are modelled as mutually recursive functions over the
script, with an explicit fuel argument that only bounds the nesting
depth of 429 resubmissions (fuel is chosen large enough that it never
runs out on the scripts the theorems use).
-/

/-- embedding of the ClientStats dataclass: requests, errors, retries are
integer counters, total_time (a Python float) is modelled as a rational. -/
structure ClientStats where
  requests : Nat := 0
  errors : Nat := 0
  total_time : ℚ := 0
  retries : Nat := 0
deriving DecidableEq

/-- embedding of the average_response_time property:
total_time / requests if requests > 0 else 0.0. -/
def average_response_time (s : ClientStats) : ℚ :=
  if s.requests > 0 then s.total_time / (s.requests : ℚ) else 0

/-- embedding of the error_rate property:
(errors / requests * 100) if requests > 0 else 0.0. -/
def error_rate (s : ClientStats) : ℚ :=
  if s.requests > 0 then (s.errors : ℚ) / (s.requests : ℚ) * 100 else 0

/-- embedding of reset_stats: replace the stats with a fresh ClientStats(). -/
def reset_stats (_ : ClientStats) : ClientStats := {}

/-- a JSON-ish value as it appears in the request payload dicts built by
the client methods. -/
inductive PyVal where
  | str (s : String)
  | int (i : Int)
  | rat (q : ℚ)
  | bool (b : Bool)
  | strList (l : List String)
deriving DecidableEq

/-- a Python dict with string keys, modelled as an association list in
insertion order. -/
abbrev PyDict := List (String × PyVal)

/-- membership of a key in a payload dict. -/
def hasKey (d : PyDict) (k : String) : Bool :=
  d.any (fun kv => kv.1 == k)

/-- truthiness of an optional Python list: None and the empty list are
falsy, a non-empty list is truthy. -/
def pyTruthyList (o : Option (List String)) : Bool :=
  match o with
  | none => false
  | some l => !l.isEmpty

/-- truthiness of an optional Python string: None and the empty string
are falsy. -/
def pyTruthyStr (o : Option String) : Bool :=
  match o with
  | none => false
  | some s => !s.isEmpty

/-- embedding of the payload-building part of search_knowledge: the data
dict starts with query, limit and threshold, then the optional keys are
added under Python truthiness tests (so None and the empty list are both
skipped). -/
def search_knowledge (query : String) (limit : Int) (threshold : ℚ)
    (types : Option (List String)) (sources : Option (List String)) : PyDict :=
  [("query", PyVal.str query), ("limit", PyVal.int limit),
   ("threshold", PyVal.rat threshold)]
  ++ (if pyTruthyList types then [("types", PyVal.strList (types.getD []))] else [])
  ++ (if pyTruthyList sources then [("sources", PyVal.strList (sources.getD []))] else [])

/-- embedding of the payload-building part of process_knowledge.  The
conversation_date default (datetime.utcnow().isoformat() + Z) is passed
in as the now_iso argument.  thread_id, conversation_date and batch_id
are added under Python truthiness tests. -/
def process_knowledge (text source : String) (thread_id : Option String)
    (conversation_date : Option String) (include_concepts deduplicate : Bool)
    (batch_id : Option String) (now_iso : String) : PyDict :=
  [("text", PyVal.str text), ("source", PyVal.str source),
   ("include_concepts", PyVal.bool include_concepts),
   ("deduplicate", PyVal.bool deduplicate)]
  ++ (if pyTruthyStr thread_id then [("thread_id", PyVal.str (thread_id.getD ("")))] else [])
  ++ (if pyTruthyStr conversation_date then
        [("conversation_date", PyVal.str (conversation_date.getD ("")))]
      else
        [("conversation_date", PyVal.str (now_iso ++ ("Z")))])
  ++ (if pyTruthyStr batch_id then [("processing_batch_id", PyVal.str (batch_id.getD ("")))] else [])

/-- the response envelope as _make_request inspects it: the success key
may be absent (treated as True by response_data.get), the error message
is present exactly when the envelope carries error.message, and the data
key may be absent. -/
structure Envelope where
  success : Option Bool
  errorMessage : Option String
  data : Option String
deriving DecidableEq

/-- the value returned by a successful _make_request:
response_data.get with key data falls back to the whole envelope. -/
inductive RetVal where
  | dataVal (v : String)
  | envelopeVal (e : Envelope)
deriving DecidableEq

/-- outcome of one physical HTTP attempt, supplied by the transport
script.  netErr models an aiohttp.ClientError or asyncio.TimeoutError
raised during session.request; resp is a parsed response with its
status, optional Retry-After header value, body envelope, and the
wall-clock duration of the attempt. -/
inductive HttpOutcome where
  | netErr (d : ℚ)
  | resp (status : Nat) (retryAfter : Option String) (body : Envelope) (d : ℚ)
deriving DecidableEq

/-- the exceptions _make_request can raise, plus a fuel marker for the
model when the transport script is exhausted (unreachable under the
hypotheses of the theorems below). -/
inductive ReqError where
  | netError
  | clientResponseError (status : Nat) (message : String)
  | runtimeError (message : String)
  | valueError
  | retryError (last : ReqError)
  | modelOutOfFuel
deriving DecidableEq

/-- simplified model of Python int() on a string: optional surrounding
whitespace, an optional sign, then at least one decimal digit; anything
else raises ValueError (modelled as none). -/
def pyParseInt (s : String) : Option Int :=
  let t := ((s.data.dropWhile Char.isWhitespace).reverse.dropWhile Char.isWhitespace).reverse
  let p : Int × List Char :=
    match t with
    | c :: rest =>
      if c = '-' then ((-1 : Int), rest)
      else if c = '+' then ((1 : Int), rest)
      else ((1 : Int), t)
    | [] => ((1 : Int), [])
  if !p.2.isEmpty && p.2.all Char.isDigit then
    some (p.1 * (p.2.foldl (fun acc c => acc * 10 + ((c.toNat : Int) - 48)) 0))
  else none

/-- the wait value computed by int(response.headers.get(Retry-After, 60)):
60 when the header is absent, otherwise the header string parsed by
int(), which raises ValueError (none) when unparsable. -/
def retryAfterValue (h : Option String) : Option Int :=
  match h with
  | none => some 60
  | some s => pyParseInt s

/-- which exceptions the tenacity decorator resubmits on:
retry_if_exception_type((aiohttp.ClientError, asyncio.TimeoutError)).
Note that aiohttp.ClientResponseError is a subclass of
aiohttp.ClientError, so it is retryable too. -/
def tenacityRetryable (e : ReqError) : Bool :=
  match e with
  | .netError => true
  | .clientResponseError _ _ => true
  | _ => false

/-- the value a successful exchange returns:
response_data.get(data-key, response_data), i.e. the data payload when
present, else the whole envelope. -/
def envelopePayload (body : Envelope) : RetVal :=
  match body.data with
  | some v => .dataVal v
  | none => .envelopeVal body

/-- result of a call into the executor model: the updated stats, the
unconsumed remainder of the transport script, the wall-clock time spent
inside the call (attempt durations plus rate-limit sleeps; tenacity
backoff sleeps between attempts are not included), and the returned
value or raised exception. -/
structure ExecResult where
  stats : ClientStats
  rest : List HttpOutcome
  elapsed : ℚ
  out : Except ReqError RetVal

/-- embedding of the two statements of the except block of _make_request:
errors += 1 and total_time += duration, where duration is the wall-clock
time from the start of this body execution to the point the exception
reached the handler. -/
def exceptBlock (st : ClientStats) (duration : ℚ) : ClientStats :=
  { st with errors := st.errors + 1, total_time := st.total_time + duration }

/-- one execution of the body of _make_request (the code inside the
tenacity decorator): it increments requests, consumes one attempt
outcome from the script, adds the attempt duration to total_time once
the response arrives, then handles 429 (sleep, increment retries,
resubmit through the decorated entry point, passed in as recur), HTTP
status at least 400 (raise ClientResponseError), envelope failure (raise
RuntimeError), or returns the payload; the surrounding except block
(exceptBlock) increments errors and re-adds the elapsed duration for
every exception that reaches it. -/
def make_request_body (recur : List HttpOutcome → ClientStats → ExecResult)
    (script : List HttpOutcome) (st : ClientStats) : ExecResult :=
  match script with
  | [] => ⟨st, [], 0, .error .modelOutOfFuel⟩
  | o :: rest =>
    let st1 : ClientStats := { st with requests := st.requests + 1 }
    match o with
    | .netErr d =>
      ⟨exceptBlock st1 d, rest, d, .error .netError⟩
    | .resp status retryAfter body d =>
      let st2 : ClientStats := { st1 with total_time := st1.total_time + d }
      if status = 429 then
        match retryAfterValue retryAfter with
        | none =>
          ⟨exceptBlock st2 d, rest, d, .error .valueError⟩
        | some w =>
          let st3 : ClientStats := { st2 with retries := st2.retries + 1 }
          let r := recur rest st3
          match r.out with
          | .ok v => ⟨r.stats, r.rest, d + (w : ℚ) + r.elapsed, .ok v⟩
          | .error e =>
            ⟨exceptBlock r.stats (d + (w : ℚ) + r.elapsed),
             r.rest, d + (w : ℚ) + r.elapsed, .error e⟩
      else if 400 ≤ status then
        ⟨exceptBlock st2 d, rest, d,
         .error (.clientResponseError status
           (body.errorMessage.getD (("HTTP ") ++ toString status)))⟩
      else if body.success.getD true = false then
        ⟨exceptBlock st2 d, rest, d,
         .error (.runtimeError (("API Error: ") ++ body.errorMessage.getD ("Unknown API error")))⟩
      else
        ⟨st2, rest, d, .ok (envelopePayload body)⟩

/-- the tenacity layer around one body (body1): stop_after_attempt(3)
allows up to attemptsLeft executions; a retryable exception with
attempts remaining resubmits the body, a retryable exception with no
attempts remaining surfaces tenacity.RetryError, and a non-retryable
exception propagates untouched. -/
def make_request_tenacity (body1 : List HttpOutcome → ClientStats → ExecResult) :
    Nat → List HttpOutcome → ClientStats → ExecResult
  | 0, script, st => ⟨st, script, 0, .error .modelOutOfFuel⟩
  | a + 1, script, st =>
    let r := body1 script st
    match r.out with
    | .ok _ => r
    | .error e =>
      if tenacityRetryable e then
        match a with
        | 0 => ⟨r.stats, r.rest, r.elapsed, .error (.retryError e)⟩
        | b + 1 =>
          let r2 := make_request_tenacity body1 (b + 1) r.rest r.stats
          ⟨r2.stats, r2.rest, r.elapsed + r2.elapsed, r2.out⟩
      else r

/-- the decorated _make_request at a given fuel level: the tenacity
layer with its full attempt budget of 3 around the body, where the
recursive rate-limit resubmission inside the body re-enters the
decorated function at one less fuel. -/
def make_request_fuel : Nat → List HttpOutcome → ClientStats → ExecResult
  | 0, script, st => ⟨st, script, 0, .error .modelOutOfFuel⟩
  | fuel + 1, script, st =>
    make_request_tenacity (make_request_body (make_request_fuel fuel)) 3 script st

/-- a top-level logical call to _make_request: the decorated function
with its full attempt budget of 3, with enough fuel that the model never
runs out before the transport script does. -/
def make_request (script : List HttpOutcome) (st : ClientStats) : ExecResult :=
  make_request_fuel (script.length + 1) script st

/-- the per-item dict built by the inner process_item coroutine of
process_batch: success True with the index and result, or success False
with the index and the stringified exception. -/
inductive BatchItemOutcome (ρ : Type) where
  | ok (index : Nat) (result : ρ)
  | failed (index : Nat) (error : String)
deriving DecidableEq

/-- embedding of process_item: run the caller-supplied processor on the
item and its index; a raised exception (modelled as Except.error) is
caught and turned into a failure dict, so process_item itself never
raises. -/
def process_item {α ρ : Type} (processor : α → Nat → Except String ρ)
    (item : α) (index : Nat) : BatchItemOutcome ρ :=
  match processor item index with
  | .ok r => .ok index r
  | .error e => .failed index e

/-- embedding of the categorize loop of process_batch: walk the gathered
outcomes in order, appending successes to results and failures to
errors.  The isinstance Exception branch of the source loop is dead in
this model because process_item catches every exception. -/
def categorize {ρ : Type} : List (BatchItemOutcome ρ) →
    List (Nat × ρ) × List (Nat × String)
  | [] => ([], [])
  | .ok i r :: rest =>
    let p := categorize rest
    ((i, r) :: p.1, p.2)
  | .failed i e :: rest =>
    let p := categorize rest
    (p.1, (i, e) :: p.2)

/-- outcome of a call to process_batch.  valueError models the
ValueError that asyncio.Semaphore raises on a negative initial value
(before any task is created); hang models the deadlock when the
semaphore starts at 0 and the items list is non-empty — every
process_item task blocks at the semaphore acquire before calling the
processor and no permit is ever released, so the gather never completes;
done carries the results and errors lists. -/
inductive BatchOutcome (ρ : Type) where
  | valueError
  | hang
  | done (results : List (Nat × ρ)) (errors : List (Nat × String))
deriving DecidableEq

/-- embedding of process_batch: build one process_item task per item
with its position index, gather them (order-preserving in this
cooperative model), and categorize the outcomes.  The two non-positive
concurrency branches reflect the asyncio.Semaphore semantics described
on BatchOutcome. -/
def process_batch {α ρ : Type} (items : List α)
    (processor : α → Nat → Except String ρ) (concurrency : Int) : BatchOutcome ρ :=
  if concurrency < 0 then .valueError
  else if concurrency == 0 && !items.isEmpty then .hang
  else
    let batch_results := items.enum.map (fun p => process_item processor p.2 p.1)
    let c := categorize batch_results
    .done c.1 c.2

deriving instance DecidableEq for Except

/-- the index carried by a per-item batch outcome. -/
def outcomeIndex {ρ : Type} : BatchItemOutcome ρ → Nat
  | .ok i _ => i
  | .failed i _ => i

lemma outcomeIndex_process_item {α ρ : Type} (processor : α → Nat → Except String ρ)
    (item : α) (index : Nat) :
    outcomeIndex (process_item processor item index) = index := by
  unfold process_item
  cases processor item index <;> rfl

lemma categorize_length {ρ : Type} (l : List (BatchItemOutcome ρ)) :
    (categorize l).1.length + (categorize l).2.length = l.length := by
  induction l with
  | nil => simp [categorize]
  | cons h t ih =>
    cases h with
    | ok i r => simp [categorize]; omega
    | failed i e => simp [categorize]; omega

lemma categorize_perm {ρ : Type} (l : List (BatchItemOutcome ρ)) :
    ((categorize l).1.map Prod.fst ++ (categorize l).2.map Prod.fst).Perm
      (l.map outcomeIndex) := by
  induction l with
  | nil => simp [categorize]
  | cons h t ih =>
    cases h with
    | ok i r =>
      simpa [categorize, outcomeIndex] using ih.cons i
    | failed i e =>
      simp only [categorize, List.map_cons, List.map, outcomeIndex]
      exact List.perm_middle.trans (ih.cons i)

lemma enumFrom_map_fst {α : Type} (n : Nat) (l : List α) :
    (l.enumFrom n).map Prod.fst = List.range' n l.length := by
  induction l generalizing n with
  | nil => simp
  | cons a t ih => simp [List.enumFrom, List.range', ih]

lemma enum_map_fst' {α : Type} (l : List α) :
    (l.enum.map Prod.fst) = List.range l.length := by
  rw [List.enum, enumFrom_map_fst, List.range_eq_range']

/-- C4: for every list of N items, every per-item operation, and every
positive concurrency limit, process_batch returns a done outcome whose
success and failure counts sum to N and whose indices, taken across both
lists, are exactly 0..N-1 with no duplicates; failing items are recorded
as failures without removing any other index. -/
theorem C4_batch_partition {α ρ : Type} (items : List α)
    (processor : α → Nat → Except String ρ) (concurrency : Int) (hc : 0 < concurrency) :
    ∃ results errs, process_batch items processor concurrency = .done results errs ∧
      results.length + errs.length = items.length ∧
      (results.map Prod.fst ++ errs.map Prod.fst).Perm (List.range items.length) ∧
      (results.map Prod.fst ++ errs.map Prod.fst).Nodup := by
  have hneg : ¬ concurrency < 0 := by omega
  have hz : (concurrency == 0) = false := by
    rw [beq_eq_false_iff_ne]; omega
  have hperm : (((categorize (items.enum.map (fun p => process_item processor p.2 p.1))).1.map Prod.fst)
      ++ ((categorize (items.enum.map (fun p => process_item processor p.2 p.1))).2.map Prod.fst)).Perm
      (List.range items.length) := by
    have h1 := categorize_perm (items.enum.map (fun p => process_item processor p.2 p.1))
    have h3 : ((items.enum.map (fun p => process_item processor p.2 p.1)).map outcomeIndex)
        = List.range items.length := by
      rw [List.map_map]
      have h4 : (outcomeIndex ∘ fun p : Nat × α => process_item processor p.2 p.1)
          = Prod.fst := by
        funext p
        exact outcomeIndex_process_item processor p.2 p.1
      rw [h4, enum_map_fst']
    rw [h3] at h1
    exact h1
  refine ⟨(categorize (items.enum.map (fun p => process_item processor p.2 p.1))).1,
          (categorize (items.enum.map (fun p => process_item processor p.2 p.1))).2,
          ?_, ?_, hperm, ?_⟩
  · unfold process_batch
    rw [if_neg hneg, hz]
    simp
  · rw [categorize_length]; simp
  · exact hperm.nodup_iff.mpr (List.nodup_range _)

/-- C4 witness: a three-item batch whose middle item fails, run at
concurrency 2. -/
theorem C4_batch_partition_witness :
    (0 : Int) < 2 ∧
    (∃ results errs,
      process_batch [("a"), ("b"), ("c")]
          (fun s i => if i = 1 then Except.error ("boom") else Except.ok s) 2
        = .done results errs ∧
      results.length + errs.length = 3 ∧
      (results.map Prod.fst ++ errs.map Prod.fst).Perm (List.range 3) ∧
      (results.map Prod.fst ++ errs.map Prod.fst).Nodup) :=
  ⟨by decide, C4_batch_partition _ _ 2 (by decide)⟩

/-- C5 counterexample: at concurrency 0 with a non-empty batch,
process_batch does not fail fast with a configuration error — the
semaphore is created successfully and every task blocks on it forever,
so the call hangs instead of erroring. -/
theorem C5_counterexample :
    process_batch [("x")] (fun s _ => Except.ok s) 0 = BatchOutcome.hang ∧
    process_batch [("x")] (fun s _ => Except.ok s) 0 ≠ BatchOutcome.valueError :=
  ⟨rfl, by decide⟩

/-- C5 amended: a negative concurrency limit raises ValueError from the
semaphore constructor before any item operation is invoked; a zero limit
raises nothing — with a non-empty batch no operation is ever invoked and
the dispatcher never completes, and with an empty batch it returns an
empty done outcome.  That no operation is invoked for any non-positive
limit is expressed by the outcome being independent of the processor. -/
theorem C5_nonpositive_concurrency {α ρ : Type} (items : List α)
    (processor processor2 : α → Nat → Except String ρ) :
    (∀ c : Int, c < 0 → process_batch items processor c = .valueError) ∧
    (items ≠ [] → process_batch items processor 0 = .hang) ∧
    (∀ c : Int, c ≤ 0 →
      process_batch items processor c = process_batch items processor2 c) ∧
    process_batch ([] : List α) processor 0
      = .done ([] : List (Nat × ρ)) ([] : List (Nat × String)) := by
  refine ⟨?_, ?_, ?_, rfl⟩
  · intro c hc
    unfold process_batch
    rw [if_pos hc]
  · intro hne
    cases items with
    | nil => exact absurd rfl hne
    | cons a t => rfl
  · intro c hc
    rcases lt_or_eq_of_le hc with h | h
    · unfold process_batch
      rw [if_pos h, if_pos h]
    · subst h
      cases items with
      | nil => rfl
      | cons a t => rfl

/-- C5 witness: the amended statement applied at a one-item batch with
concurrency 0 and with concurrency -1. -/
theorem C5_nonpositive_concurrency_witness :
    ((["x"] : List String) ≠ [] ∧
      process_batch [("x")] (fun s _ => Except.ok s) 0 = BatchOutcome.hang) ∧
    ((-1 : Int) < 0 ∧
      process_batch [("x")] (fun s _ => Except.ok s) (-1) = BatchOutcome.valueError) :=
  ⟨⟨by decide, (C5_nonpositive_concurrency [("x")] (fun s _ => Except.ok s)
      (fun s _ => Except.ok s)).2.1 (by decide)⟩,
   ⟨by decide, (C5_nonpositive_concurrency [("x")] (fun s _ => Except.ok s)
      (fun s _ => Except.ok s)).1 (-1) (by decide)⟩⟩

/-- C9: reset_stats yields the all-zero stats; on those stats the two
derived properties evaluate to 0; whenever requests is 0 both derived
properties are 0 without ever dividing, and the division form is used
exactly when requests is positive. -/
theorem C9_reset_and_derived (s : ClientStats) :
    reset_stats s = ⟨0, 0, 0, 0⟩ ∧
    average_response_time (reset_stats s) = 0 ∧
    error_rate (reset_stats s) = 0 ∧
    (∀ t : ClientStats, t.requests = 0 →
      average_response_time t = 0 ∧ error_rate t = 0) ∧
    (∀ t : ClientStats, 0 < t.requests →
      average_response_time t = t.total_time / (t.requests : ℚ) ∧
      error_rate t = (t.errors : ℚ) / (t.requests : ℚ) * 100) := by
  refine ⟨rfl, rfl, rfl, ?_, ?_⟩
  · intro t ht
    constructor <;> simp [average_response_time, error_rate, ht]
  · intro t ht
    constructor <;> simp [average_response_time, error_rate, ht]

/-- C9 witness: nonzero error and time counters with requests 0 still
derive 0 for both properties. -/
theorem C9_reset_and_derived_witness :
    average_response_time ⟨0, 3, 9, 2⟩ = 0 ∧ error_rate ⟨0, 3, 9, 2⟩ = 0 :=
  (C9_reset_and_derived ⟨5, 2, 7, 1⟩).2.2.2.1 ⟨0, 3, 9, 2⟩ rfl

lemma pyTruthyStr_none : pyTruthyStr none = false := rfl

/-- C10: passing an empty types or sources list to search_knowledge
builds exactly the payload built when the argument is omitted; the
optional keys appear in the payload precisely for a non-empty list, and
process_knowledge treats an empty-string thread_id like an omitted
one. -/
theorem C10_empty_optionals_equiv (query : String) (limit : Int) (threshold : ℚ)
    (types sources : Option (List String)) (text source : String)
    (thread_id conversation_date batch_id : Option String)
    (ic dd : Bool) (now_iso : String) :
    search_knowledge query limit threshold (some []) sources
      = search_knowledge query limit threshold none sources ∧
    search_knowledge query limit threshold types (some [])
      = search_knowledge query limit threshold types none ∧
    (hasKey (search_knowledge query limit threshold types sources) ("types") = true
      ↔ ∃ l, types = some l ∧ l ≠ []) ∧
    (hasKey (search_knowledge query limit threshold types sources) ("sources") = true
      ↔ ∃ l, sources = some l ∧ l ≠ []) ∧
    process_knowledge text source (some ("")) conversation_date ic dd batch_id now_iso
      = process_knowledge text source none conversation_date ic dd batch_id now_iso ∧
    (hasKey (process_knowledge text source thread_id conversation_date ic dd batch_id now_iso)
        ("thread_id") = true
      ↔ ∃ t, thread_id = some t ∧ t ≠ ("")) := by
  refine ⟨rfl, rfl, ?_, ?_, rfl, ?_⟩
  · rcases types with _ | ⟨_ | ⟨a, t⟩⟩ <;>
      rcases sources with _ | ⟨_ | ⟨b, u⟩⟩ <;>
      simp [search_knowledge, hasKey, pyTruthyList]
  · rcases types with _ | ⟨_ | ⟨a, t⟩⟩ <;>
      rcases sources with _ | ⟨_ | ⟨b, u⟩⟩ <;>
      simp [search_knowledge, hasKey, pyTruthyList]
  · rcases thread_id with _ | t
    · cases h : pyTruthyStr conversation_date <;>
        cases h2 : pyTruthyStr batch_id <;>
        simp [process_knowledge, hasKey, h, h2, pyTruthyStr_none]
    · by_cases ht : t = ("")
      · subst ht
        have hff : pyTruthyStr (some ("")) = false := by decide
        cases h : pyTruthyStr conversation_date <;>
          cases h2 : pyTruthyStr batch_id <;>
          simp [process_knowledge, hasKey, hff, h, h2]
      · have hie : t.isEmpty = false := by
          rw [Bool.eq_false_iff]
          intro hh
          exact ht ((String.isEmpty_iff t).mp hh)
        have htt : pyTruthyStr (some t) = true := by
          simp [pyTruthyStr, hie]
        cases h : pyTruthyStr conversation_date <;>
          cases h2 : pyTruthyStr batch_id <;>
          simp [process_knowledge, hasKey, htt, h, h2, ht]

lemma make_request_def (script : List HttpOutcome) (st : ClientStats) :
    make_request script st = make_request_fuel (script.length + 1) script st := rfl

lemma make_request_fuel_succ (fuel : Nat) (script : List HttpOutcome) (st : ClientStats) :
    make_request_fuel (fuel + 1) script st
      = make_request_tenacity (make_request_body (make_request_fuel fuel)) 3 script st := rfl

lemma body_netErr (recur : List HttpOutcome → ClientStats → ExecResult)
    (d : ℚ) (rest : List HttpOutcome) (st : ClientStats) :
    make_request_body recur (.netErr d :: rest) st
      = ⟨⟨st.requests + 1, st.errors + 1, st.total_time + d, st.retries⟩, rest, d,
         .error .netError⟩ := rfl

lemma body_success (recur : List HttpOutcome → ClientStats → ExecResult)
    (status : Nat) (ra : Option String) (env : Envelope) (d : ℚ)
    (rest : List HttpOutcome) (st : ClientStats)
    (h9 : ¬ status = 429) (h4 : ¬ 400 ≤ status)
    (hok : ¬ env.success.getD true = false) :
    make_request_body recur (.resp status ra env d :: rest) st
      = ⟨⟨st.requests + 1, st.errors, st.total_time + d, st.retries⟩, rest, d,
         .ok (envelopePayload env)⟩ := by
  simp [make_request_body, h9, h4, hok]

lemma body_httpErr (recur : List HttpOutcome → ClientStats → ExecResult)
    (status : Nat) (ra : Option String) (env : Envelope) (d : ℚ)
    (rest : List HttpOutcome) (st : ClientStats)
    (h4 : 400 ≤ status) (h9 : ¬ status = 429) :
    make_request_body recur (.resp status ra env d :: rest) st
      = ⟨⟨st.requests + 1, st.errors + 1, st.total_time + d + d, st.retries⟩, rest, d,
         .error (.clientResponseError status
           (env.errorMessage.getD (("HTTP ") ++ toString status)))⟩ := by
  simp [make_request_body, exceptBlock, h9, h4]

lemma body_apiErr (recur : List HttpOutcome → ClientStats → ExecResult)
    (status : Nat) (ra : Option String) (env : Envelope) (d : ℚ)
    (rest : List HttpOutcome) (st : ClientStats)
    (h9 : ¬ status = 429) (h4 : ¬ 400 ≤ status)
    (hbad : env.success.getD true = false) :
    make_request_body recur (.resp status ra env d :: rest) st
      = ⟨⟨st.requests + 1, st.errors + 1, st.total_time + d + d, st.retries⟩, rest, d,
         .error (.runtimeError (("API Error: ") ++ env.errorMessage.getD ("Unknown API error")))⟩ := by
  simp [make_request_body, exceptBlock, h9, h4, hbad]

lemma body_429_badHeader (recur : List HttpOutcome → ClientStats → ExecResult)
    (ra : Option String) (env : Envelope) (d : ℚ)
    (rest : List HttpOutcome) (st : ClientStats)
    (hw : retryAfterValue ra = none) :
    make_request_body recur (.resp 429 ra env d :: rest) st
      = ⟨⟨st.requests + 1, st.errors + 1, st.total_time + d + d, st.retries⟩, rest, d,
         .error .valueError⟩ := by
  simp [make_request_body, exceptBlock, hw]

lemma body_429_ok (recur : List HttpOutcome → ClientStats → ExecResult)
    (ra : Option String) (w : Int) (env : Envelope) (d : ℚ)
    (rest : List HttpOutcome) (st : ClientStats) (r : ExecResult) (v : RetVal)
    (hw : retryAfterValue ra = some w)
    (hrec : recur rest ⟨st.requests + 1, st.errors, st.total_time + d, st.retries + 1⟩ = r)
    (hro : r.out = Except.ok v) :
    make_request_body recur (.resp 429 ra env d :: rest) st
      = ⟨r.stats, r.rest, d + (w : ℚ) + r.elapsed, .ok v⟩ := by
  simp [make_request_body, hw, hrec, hro]

lemma body_429_err (recur : List HttpOutcome → ClientStats → ExecResult)
    (ra : Option String) (w : Int) (env : Envelope) (d : ℚ)
    (rest : List HttpOutcome) (st : ClientStats) (r : ExecResult) (e : ReqError)
    (hw : retryAfterValue ra = some w)
    (hrec : recur rest ⟨st.requests + 1, st.errors, st.total_time + d, st.retries + 1⟩ = r)
    (hro : r.out = Except.error e) :
    make_request_body recur (.resp 429 ra env d :: rest) st
      = ⟨⟨r.stats.requests, r.stats.errors + 1,
          r.stats.total_time + (d + (w : ℚ) + r.elapsed), r.stats.retries⟩,
         r.rest, d + (w : ℚ) + r.elapsed, .error e⟩ := by
  simp [make_request_body, exceptBlock, hw, hrec, hro]

lemma tenacity_ok (body1 : List HttpOutcome → ClientStats → ExecResult)
    (n : Nat) (script : List HttpOutcome) (st : ClientStats) (r : ExecResult) (v : RetVal)
    (hb : body1 script st = r) (ho : r.out = Except.ok v) :
    make_request_tenacity body1 (n + 1) script st = r := by
  unfold make_request_tenacity
  rw [hb]
  simp only [ho]

lemma tenacity_noretry (body1 : List HttpOutcome → ClientStats → ExecResult)
    (n : Nat) (script : List HttpOutcome) (st : ClientStats) (r : ExecResult) (e : ReqError)
    (hb : body1 script st = r) (ho : r.out = Except.error e)
    (hnr : tenacityRetryable e = false) :
    make_request_tenacity body1 (n + 1) script st = r := by
  unfold make_request_tenacity
  rw [hb]
  simp only [ho, hnr]
  simp

lemma tenacity_last (body1 : List HttpOutcome → ClientStats → ExecResult)
    (script : List HttpOutcome) (st : ClientStats) (r : ExecResult) (e : ReqError)
    (hb : body1 script st = r) (ho : r.out = Except.error e)
    (hr : tenacityRetryable e = true) :
    make_request_tenacity body1 1 script st
      = ⟨r.stats, r.rest, r.elapsed, .error (.retryError e)⟩ := by
  unfold make_request_tenacity
  rw [hb]
  simp only [ho, hr]
  simp

lemma tenacity_step (body1 : List HttpOutcome → ClientStats → ExecResult)
    (n : Nat) (script : List HttpOutcome) (st : ClientStats) (r r2 : ExecResult) (e : ReqError)
    (hb : body1 script st = r) (ho : r.out = Except.error e)
    (hr : tenacityRetryable e = true)
    (hrec : make_request_tenacity body1 (n + 1) r.rest r.stats = r2) :
    make_request_tenacity body1 (n + 2) script st
      = ⟨r2.stats, r2.rest, r.elapsed + r2.elapsed, r2.out⟩ := by
  conv_lhs => unfold make_request_tenacity
  rw [hb]
  simp only [ho, hr]
  rw [hrec]
  simp

lemma make_request_http_error_three (status : Nat) (env : Envelope) (d1 d2 d3 : ℚ)
    (rest : List HttpOutcome) (st : ClientStats)
    (h4 : 400 ≤ status) (h9 : ¬ status = 429) :
    make_request (.resp status none env d1 :: .resp status none env d2
        :: .resp status none env d3 :: rest) st
      = ⟨⟨st.requests + 1 + 1 + 1, st.errors + 1 + 1 + 1,
          st.total_time + d1 + d1 + d2 + d2 + d3 + d3, st.retries⟩,
         rest, d1 + (d2 + d3),
         .error (.retryError (.clientResponseError status
           (env.errorMessage.getD (("HTTP ") ++ toString status))))⟩ := by
  have hb1 := body_httpErr (make_request_fuel (rest.length + 1 + 1 + 1)) status none env d1
      (.resp status none env d2 :: .resp status none env d3 :: rest) st h4 h9
  have hb2 := body_httpErr (make_request_fuel (rest.length + 1 + 1 + 1)) status none env d2
      (.resp status none env d3 :: rest)
      ⟨st.requests + 1, st.errors + 1, st.total_time + d1 + d1, st.retries⟩ h4 h9
  have hb3 := body_httpErr (make_request_fuel (rest.length + 1 + 1 + 1)) status none env d3
      rest
      ⟨st.requests + 1 + 1, st.errors + 1 + 1, st.total_time + d1 + d1 + d2 + d2, st.retries⟩
      h4 h9
  have hT1 := tenacity_last _ _ _ _ _ hb3 rfl rfl
  have hT2 := tenacity_step _ 0 _ _ _ _ _ hb2 rfl rfl hT1
  have hT3 := tenacity_step _ 1 _ _ _ _ _ hb1 rfl rfl hT2
  rw [make_request_def]
  simp only [List.length_cons]
  rw [make_request_fuel_succ]
  exact hT3

lemma make_request_net_error_three (d1 d2 d3 : ℚ)
    (rest : List HttpOutcome) (st : ClientStats) :
    make_request (.netErr d1 :: .netErr d2 :: .netErr d3 :: rest) st
      = ⟨⟨st.requests + 1 + 1 + 1, st.errors + 1 + 1 + 1,
          st.total_time + d1 + d2 + d3, st.retries⟩,
         rest, d1 + (d2 + d3), .error (.retryError .netError)⟩ := by
  have hb1 := body_netErr (make_request_fuel (rest.length + 1 + 1 + 1)) d1
      (.netErr d2 :: .netErr d3 :: rest) st
  have hb2 := body_netErr (make_request_fuel (rest.length + 1 + 1 + 1)) d2
      (.netErr d3 :: rest)
      ⟨st.requests + 1, st.errors + 1, st.total_time + d1, st.retries⟩
  have hb3 := body_netErr (make_request_fuel (rest.length + 1 + 1 + 1)) d3
      rest
      ⟨st.requests + 1 + 1, st.errors + 1 + 1, st.total_time + d1 + d2, st.retries⟩
  have hT1 := tenacity_last _ _ _ _ _ hb3 rfl rfl
  have hT2 := tenacity_step _ 0 _ _ _ _ _ hb2 rfl rfl hT1
  have hT3 := tenacity_step _ 1 _ _ _ _ _ hb1 rfl rfl hT2
  rw [make_request_def]
  simp only [List.length_cons]
  rw [make_request_fuel_succ]
  exact hT3

/-- C1 counterexample: a call that receives one 429 with Retry-After 2
and then succeeds increments requests by 2, not by 1 — the rate-limit
resubmission re-enters the decorated function, whose body increments
requests again. -/
theorem C1_counterexample :
    (make_request [.resp 429 (some ("2")) ⟨none, none, none⟩ 1,
                   .resp 200 none ⟨some true, none, some ("ok")⟩ 1] {}).stats.requests = 2 ∧
    (2 : Nat) ≠ 1 ∧
    (make_request [.resp 429 (some ("2")) ⟨none, none, none⟩ 1,
                   .resp 200 none ⟨some true, none, some ("ok")⟩ 1] {}).stats.retries = 1 ∧
    (make_request [.resp 429 (some ("2")) ⟨none, none, none⟩ 1,
                   .resp 200 none ⟨some true, none, some ("ok")⟩ 1] {}).out
      = Except.ok (.dataVal ("ok")) :=
  ⟨rfl, by decide, rfl, rfl⟩

/-- C1 amended: on a 429 with Retry-After 2 followed by a successful
response, the call returns success and increments retries by 1, but
requests is incremented once per physical attempt — by 2 in total, since
the 429-induced resubmission increments it again; total_time collects
both attempt durations and the wall-clock elapsed time also includes the
2 time-unit wait, hence is at least 2. -/
theorem C1_rate_limit_resubmission (d1 d2 : ℚ) (hd1 : 0 ≤ d1) (hd2 : 0 ≤ d2)
    (env1 env2 : Envelope) (status : Nat) (hs : status < 400)
    (hok : ¬ env2.success.getD true = false)
    (rest : List HttpOutcome) (st : ClientStats) :
    (make_request (.resp 429 (some ("2")) env1 d1 :: .resp status none env2 d2 :: rest) st).out
      = Except.ok (envelopePayload env2) ∧
    (make_request (.resp 429 (some ("2")) env1 d1 :: .resp status none env2 d2 :: rest) st).stats.requests
      = st.requests + 2 ∧
    (make_request (.resp 429 (some ("2")) env1 d1 :: .resp status none env2 d2 :: rest) st).stats.retries
      = st.retries + 1 ∧
    (make_request (.resp 429 (some ("2")) env1 d1 :: .resp status none env2 d2 :: rest) st).stats.errors
      = st.errors ∧
    (make_request (.resp 429 (some ("2")) env1 d1 :: .resp status none env2 d2 :: rest) st).stats.total_time
      = st.total_time + (d1 + d2) ∧
    (make_request (.resp 429 (some ("2")) env1 d1 :: .resp status none env2 d2 :: rest) st).elapsed
      = d1 + 2 + d2 ∧
    2 ≤ (make_request (.resp 429 (some ("2")) env1 d1 :: .resp status none env2 d2 :: rest) st).elapsed := by
  have h9 : ¬ (status = 429) := by omega
  have h4 : ¬ (400 ≤ status) := by omega
  have hra : retryAfterValue (some ("2")) = some 2 := by decide
  have hb2 := body_success (make_request_fuel (rest.length + 1)) status none env2 d2 rest
      ⟨st.requests + 1, st.errors, st.total_time + d1, st.retries + 1⟩ h9 h4 hok
  have hf2 : make_request_fuel (rest.length + 1 + 1)
      (.resp status none env2 d2 :: rest)
      ⟨st.requests + 1, st.errors, st.total_time + d1, st.retries + 1⟩
      = ⟨⟨st.requests + 1 + 1, st.errors, st.total_time + d1 + d2, st.retries + 1⟩, rest, d2,
         .ok (envelopePayload env2)⟩ := by
    rw [make_request_fuel_succ]
    exact tenacity_ok _ 2 _ _ _ _ hb2 rfl
  have hb1 : make_request_body (make_request_fuel (rest.length + 1 + 1))
      (.resp 429 (some ("2")) env1 d1 :: .resp status none env2 d2 :: rest) st
      = ⟨⟨st.requests + 1 + 1, st.errors, st.total_time + d1 + d2, st.retries + 1⟩,
         rest, d1 + ((2 : Int) : ℚ) + d2, .ok (envelopePayload env2)⟩ :=
    body_429_ok _ (some ("2")) 2 env1 d1 _ st _ (envelopePayload env2) hra hf2 rfl
  have hmain : make_request (.resp 429 (some ("2")) env1 d1 :: .resp status none env2 d2 :: rest) st
      = ⟨⟨st.requests + 1 + 1, st.errors, st.total_time + d1 + d2, st.retries + 1⟩,
         rest, d1 + ((2 : Int) : ℚ) + d2, .ok (envelopePayload env2)⟩ := by
    rw [make_request_def]
    simp only [List.length_cons]
    rw [make_request_fuel_succ]
    exact tenacity_ok _ 2 _ _ _ _ hb1 rfl
  rw [hmain]
  refine ⟨rfl, rfl, rfl, rfl, by ring, by push_cast; ring, ?_⟩
  push_cast
  linarith

/-- C1 witness: the amended statement applied at durations 1, a plain
429 envelope, and a successful 200 envelope carrying data. -/
theorem C1_rate_limit_resubmission_witness :
    ((0 : ℚ) ≤ 1 ∧ (200 : Nat) < 400) ∧
    (make_request [.resp 429 (some ("2")) ⟨none, none, none⟩ 1,
                   .resp 200 none ⟨some true, none, some ("ok")⟩ 1] {}).stats.requests = 2 ∧
    (make_request [.resp 429 (some ("2")) ⟨none, none, none⟩ 1,
                   .resp 200 none ⟨some true, none, some ("ok")⟩ 1] {}).stats.retries = 1 ∧
    2 ≤ (make_request [.resp 429 (some ("2")) ⟨none, none, none⟩ 1,
                   .resp 200 none ⟨some true, none, some ("ok")⟩ 1] {}).elapsed :=
  ⟨⟨by norm_num, by decide⟩,
   (C1_rate_limit_resubmission 1 1 (by norm_num) (by norm_num) ⟨none, none, none⟩
      ⟨some true, none, some ("ok")⟩ 200 (by decide) (by decide) [] {}).2.1,
   (C1_rate_limit_resubmission 1 1 (by norm_num) (by norm_num) ⟨none, none, none⟩
      ⟨some true, none, some ("ok")⟩ 200 (by decide) (by decide) [] {}).2.2.1,
   (C1_rate_limit_resubmission 1 1 (by norm_num) (by norm_num) ⟨none, none, none⟩
      ⟨some true, none, some ("ok")⟩ 200 (by decide) (by decide) [] {}).2.2.2.2.2.2⟩

/-- C2 counterexample: with a transport that times out on every attempt,
the call makes exactly 3 attempts and surfaces tenacity.RetryError, but
errors and requests each increase by 3 — one per attempt — not by 1. -/
theorem C2_counterexample :
    (make_request [.netErr 1, .netErr 1, .netErr 1] {}).out
      = .error (.retryError .netError) ∧
    (make_request [.netErr 1, .netErr 1, .netErr 1] {}).rest = [] ∧
    (make_request [.netErr 1, .netErr 1, .netErr 1] {}).stats.requests = 3 ∧
    (make_request [.netErr 1, .netErr 1, .netErr 1] {}).stats.errors = 3 ∧
    (3 : Nat) ≠ 1 :=
  ⟨rfl, rfl, rfl, rfl, by decide⟩

/-- C2 amended: a transport failing with a network or timeout error on
every attempt makes exactly the fixed attempt ceiling of 3 attempts and
surfaces the transient failure (tenacity.RetryError wrapping the network
error); requests and errors each increment by 3 — once per attempt — and
total_time collects every attempt duration once. -/
theorem C2_transient_exhaustion (d1 d2 d3 : ℚ) (rest : List HttpOutcome) (st : ClientStats) :
    (make_request (.netErr d1 :: .netErr d2 :: .netErr d3 :: rest) st).out
      = .error (.retryError .netError) ∧
    (make_request (.netErr d1 :: .netErr d2 :: .netErr d3 :: rest) st).rest = rest ∧
    (make_request (.netErr d1 :: .netErr d2 :: .netErr d3 :: rest) st).stats.requests
      = st.requests + 3 ∧
    (make_request (.netErr d1 :: .netErr d2 :: .netErr d3 :: rest) st).stats.errors
      = st.errors + 3 ∧
    (make_request (.netErr d1 :: .netErr d2 :: .netErr d3 :: rest) st).stats.retries
      = st.retries ∧
    (make_request (.netErr d1 :: .netErr d2 :: .netErr d3 :: rest) st).stats.total_time
      = st.total_time + (d1 + d2 + d3) ∧
    (make_request (.netErr d1 :: .netErr d2 :: .netErr d3 :: rest) st).elapsed
      = d1 + d2 + d3 := by
  rw [make_request_net_error_three]
  refine ⟨rfl, rfl, rfl, rfl, rfl, by ring, by ring⟩

/-- C3 counterexample: an HTTP 500 on every attempt is retried — three
attempts are consumed, requests increments by 3, and the surfaced error
is tenacity.RetryError wrapping the ClientResponseError instead of the
ClientResponseError itself, because ClientResponseError is a subclass of
the retryable aiohttp.ClientError. -/
theorem C3_counterexample :
    (make_request [.resp 500 none ⟨none, none, none⟩ 1, .resp 500 none ⟨none, none, none⟩ 1,
                   .resp 500 none ⟨none, none, none⟩ 1] {}).out
      = .error (.retryError (.clientResponseError 500 ("HTTP 500"))) ∧
    (make_request [.resp 500 none ⟨none, none, none⟩ 1, .resp 500 none ⟨none, none, none⟩ 1,
                   .resp 500 none ⟨none, none, none⟩ 1] {}).out
      ≠ .error (.clientResponseError 500 ("HTTP 500")) ∧
    (make_request [.resp 500 none ⟨none, none, none⟩ 1, .resp 500 none ⟨none, none, none⟩ 1,
                   .resp 500 none ⟨none, none, none⟩ 1] {}).rest = [] ∧
    (make_request [.resp 500 none ⟨none, none, none⟩ 1, .resp 500 none ⟨none, none, none⟩ 1,
                   .resp 500 none ⟨none, none, none⟩ 1] {}).stats.requests = 3 ∧
    (3 : Nat) ≠ 1 :=
  ⟨rfl, by decide, rfl, rfl, by decide⟩

/-- C3 amended: a status of at least 400 and not 429 is classified as a
ClientResponseError carrying that status and the envelope error message
when present, else the generic HTTP-status string; but because that
exception is an aiohttp.ClientError the retry wrapper resubmits it, so
three attempts are consumed and the caller receives a
tenacity.RetryError wrapping the classification, with requests and
errors incremented by 3 and each attempt duration double-counted. -/
theorem C3_http_error_classified_then_retried (status : Nat) (env : Envelope)
    (d1 d2 d3 : ℚ) (rest : List HttpOutcome) (st : ClientStats)
    (h4 : 400 ≤ status) (h9 : status ≠ 429) :
    (make_request (.resp status none env d1 :: .resp status none env d2
        :: .resp status none env d3 :: rest) st).out
      = .error (.retryError (.clientResponseError status
          (env.errorMessage.getD (("HTTP ") ++ toString status)))) ∧
    (make_request (.resp status none env d1 :: .resp status none env d2
        :: .resp status none env d3 :: rest) st).rest = rest ∧
    (make_request (.resp status none env d1 :: .resp status none env d2
        :: .resp status none env d3 :: rest) st).stats.requests = st.requests + 3 ∧
    (make_request (.resp status none env d1 :: .resp status none env d2
        :: .resp status none env d3 :: rest) st).stats.errors = st.errors + 3 ∧
    (make_request (.resp status none env d1 :: .resp status none env d2
        :: .resp status none env d3 :: rest) st).stats.retries = st.retries ∧
    (make_request (.resp status none env d1 :: .resp status none env d2
        :: .resp status none env d3 :: rest) st).stats.total_time
      = st.total_time + 2 * (d1 + d2 + d3) := by
  rw [make_request_http_error_three status env d1 d2 d3 rest st h4 h9]
  refine ⟨rfl, rfl, rfl, rfl, rfl, by ring⟩

/-- C3 witness: an HTTP 500 whose envelope carries an error message; the
message is picked up and the call consumes three attempts. -/
theorem C3_http_error_classified_then_retried_witness :
    (400 ≤ 500 ∧ (500 : Nat) ≠ 429) ∧
    (make_request [.resp 500 none ⟨none, some ("oops"), none⟩ 1,
                   .resp 500 none ⟨none, some ("oops"), none⟩ 1,
                   .resp 500 none ⟨none, some ("oops"), none⟩ 1] {}).out
      = .error (.retryError (.clientResponseError 500 ("oops"))) ∧
    (make_request [.resp 500 none ⟨none, some ("oops"), none⟩ 1,
                   .resp 500 none ⟨none, some ("oops"), none⟩ 1,
                   .resp 500 none ⟨none, some ("oops"), none⟩ 1] {}).stats.errors = 3 :=
  ⟨⟨by decide, by decide⟩,
   (C3_http_error_classified_then_retried 500 ⟨none, some ("oops"), none⟩ 1 1 1 [] {}
      (by decide) (by decide)).1,
   (C3_http_error_classified_then_retried 500 ⟨none, some ("oops"), none⟩ 1 1 1 [] {}
      (by decide) (by decide)).2.2.2.1⟩

/-- C6 counterexample: a 429 whose Retry-After header is not an integer
raises ValueError from int() — the call surfaces ValueError instead of
defaulting to 60, retries stays unchanged, and the logical call is never
resubmitted (the second transport outcome is left unconsumed). -/
theorem C6_counterexample :
    (make_request [.resp 429 (some ("soon")) ⟨none, none, none⟩ 1,
                   .resp 200 none ⟨some true, none, some ("ok")⟩ 1] {}).out
      = Except.error .valueError ∧
    (make_request [.resp 429 (some ("soon")) ⟨none, none, none⟩ 1,
                   .resp 200 none ⟨some true, none, some ("ok")⟩ 1] {}).stats.retries = 0 ∧
    (make_request [.resp 429 (some ("soon")) ⟨none, none, none⟩ 1,
                   .resp 200 none ⟨some true, none, some ("ok")⟩ 1] {}).rest
      = [.resp 200 none ⟨some true, none, some ("ok")⟩ 1] ∧
    (Except.error .valueError : Except ReqError RetVal) ≠ Except.ok (.dataVal ("ok")) :=
  ⟨rfl, rfl, rfl, by decide⟩

/-- C6 amended: the 60 time-unit default applies only when the
Retry-After header is absent; when the header parses as an integer the
call sleeps that value, increments retries and resubmits; when the
header is present but unparsable, int() raises ValueError, which is
counted as an error and surfaced without resubmission, with retries
unchanged. -/
theorem C6_retry_after_handling (d1 d2 : ℚ) (h : Option String) (w : Int) (s2 : String)
    (env1 env2 : Envelope) (status : Nat) (rest rest2 : List HttpOutcome) (st : ClientStats)
    (hs : status < 400) (hok : ¬ env2.success.getD true = false) :
    retryAfterValue none = some 60 ∧
    (retryAfterValue h = some w →
      ((make_request (.resp 429 h env1 d1 :: .resp status none env2 d2 :: rest) st).out
          = Except.ok (envelopePayload env2) ∧
       (make_request (.resp 429 h env1 d1 :: .resp status none env2 d2 :: rest) st).stats.retries
          = st.retries + 1 ∧
       (make_request (.resp 429 h env1 d1 :: .resp status none env2 d2 :: rest) st).elapsed
          = d1 + (w : ℚ) + d2)) ∧
    (pyParseInt s2 = none →
      ((make_request (.resp 429 (some s2) env1 d1 :: rest2) st).out
          = Except.error .valueError ∧
       (make_request (.resp 429 (some s2) env1 d1 :: rest2) st).stats.retries = st.retries ∧
       (make_request (.resp 429 (some s2) env1 d1 :: rest2) st).stats.errors = st.errors + 1 ∧
       (make_request (.resp 429 (some s2) env1 d1 :: rest2) st).rest = rest2)) := by
  have h9 : ¬ (status = 429) := by omega
  have h4 : ¬ (400 ≤ status) := by omega
  refine ⟨rfl, ?_, ?_⟩
  · intro hw
    have hb2 := body_success (make_request_fuel (rest.length + 1)) status none env2 d2 rest
        ⟨st.requests + 1, st.errors, st.total_time + d1, st.retries + 1⟩ h9 h4 hok
    have hf2 : make_request_fuel (rest.length + 1 + 1)
        (.resp status none env2 d2 :: rest)
        ⟨st.requests + 1, st.errors, st.total_time + d1, st.retries + 1⟩
        = ⟨⟨st.requests + 1 + 1, st.errors, st.total_time + d1 + d2, st.retries + 1⟩, rest, d2,
           .ok (envelopePayload env2)⟩ := by
      rw [make_request_fuel_succ]
      exact tenacity_ok _ 2 _ _ _ _ hb2 rfl
    have hb1 : make_request_body (make_request_fuel (rest.length + 1 + 1))
        (.resp 429 h env1 d1 :: .resp status none env2 d2 :: rest) st
        = ⟨⟨st.requests + 1 + 1, st.errors, st.total_time + d1 + d2, st.retries + 1⟩,
           rest, d1 + (w : ℚ) + d2, .ok (envelopePayload env2)⟩ :=
      body_429_ok _ h w env1 d1 _ st _ (envelopePayload env2) hw hf2 rfl
    have hmain : make_request (.resp 429 h env1 d1 :: .resp status none env2 d2 :: rest) st
        = ⟨⟨st.requests + 1 + 1, st.errors, st.total_time + d1 + d2, st.retries + 1⟩,
           rest, d1 + (w : ℚ) + d2, .ok (envelopePayload env2)⟩ := by
      rw [make_request_def]
      simp only [List.length_cons]
      rw [make_request_fuel_succ]
      exact tenacity_ok _ 2 _ _ _ _ hb1 rfl
    rw [hmain]
    exact ⟨rfl, rfl, rfl⟩
  · intro hp
    have hw2 : retryAfterValue (some s2) = none := by
      simp [retryAfterValue, hp]
    have hb1 := body_429_badHeader (make_request_fuel (rest2.length + 1)) (some s2) env1 d1
        rest2 st hw2
    have hmain : make_request (.resp 429 (some s2) env1 d1 :: rest2) st
        = ⟨⟨st.requests + 1, st.errors + 1, st.total_time + d1 + d1, st.retries⟩, rest2, d1,
           .error .valueError⟩ := by
      rw [make_request_def]
      simp only [List.length_cons]
      rw [make_request_fuel_succ]
      exact tenacity_noretry _ 2 _ _ _ _ hb1 rfl rfl
    rw [hmain]
    exact ⟨rfl, rfl, rfl, rfl⟩

/-- C6 witness: the absent-header default of 60 applied on a successful
resubmission, and the unparsable header value soon surfacing ValueError
with retries unchanged. -/
theorem C6_retry_after_handling_witness :
    ((200 : Nat) < 400 ∧ retryAfterValue none = some 60 ∧ pyParseInt ("soon") = none) ∧
    (make_request [.resp 429 none ⟨none, none, none⟩ 1,
                   .resp 200 none ⟨some true, none, some ("ok")⟩ 1] {}).stats.retries = 1 ∧
    (make_request [.resp 429 none ⟨none, none, none⟩ 1,
                   .resp 200 none ⟨some true, none, some ("ok")⟩ 1] {}).elapsed
      = 1 + ((60 : Int) : ℚ) + 1 ∧
    (make_request [.resp 429 (some ("soon")) ⟨none, none, none⟩ 1] {}).out
      = Except.error .valueError ∧
    (make_request [.resp 429 (some ("soon")) ⟨none, none, none⟩ 1] {}).stats.retries = 0 :=
  ⟨⟨by decide, by decide, by decide⟩,
   ((C6_retry_after_handling 1 1 none 60 ("soon") ⟨none, none, none⟩
       ⟨some true, none, some ("ok")⟩ 200 [] [] {} (by decide) (by decide)).2.1 rfl).2.1,
   ((C6_retry_after_handling 1 1 none 60 ("soon") ⟨none, none, none⟩
       ⟨some true, none, some ("ok")⟩ 200 [] [] {} (by decide) (by decide)).2.1 rfl).2.2,
   ((C6_retry_after_handling 1 1 none 60 ("soon") ⟨none, none, none⟩
       ⟨some true, none, some ("ok")⟩ 200 [] [] {} (by decide) (by decide)).2.2 (by decide)).1,
   ((C6_retry_after_handling 1 1 none 60 ("soon") ⟨none, none, none⟩
       ⟨some true, none, some ("ok")⟩ 200 [] [] {} (by decide) (by decide)).2.2 (by decide)).2.1⟩

/-- C7 counterexample: a single attempt of duration 1 whose envelope
reports failure contributes 2 to total_time — once at response receipt
and once again in the error handler — so total_time is not the sum of
attempt durations. -/
theorem C7_counterexample :
    (make_request [.resp 200 none ⟨some false, some ("boom"), none⟩ 1] {}).stats.total_time = 2 ∧
    (2 : ℚ) ≠ 1 := by
  refine ⟨?_, by norm_num⟩
  norm_num [make_request, make_request_fuel, make_request_tenacity, make_request_body,
    exceptBlock, tenacityRetryable]

/-- C7 amended: attempts that succeed or fail with a network error add
their duration to total_time exactly once (also across tenacity
retries), but an attempt that raises after the response was received —
an envelope failure or an HTTP error — adds its duration twice: once at
the timing line and once in the error handler. -/
theorem C7_duration_accumulation (status : Nat) (hs : status < 400)
    (env : Envelope) (hok : ¬ env.success.getD true = false)
    (envb : Envelope) (hbad : envb.success.getD true = false)
    (s4 : Nat) (h44 : 400 ≤ s4) (h49 : s4 ≠ 429)
    (env4 : Envelope) (d d1 d2 d3 : ℚ) (rest : List HttpOutcome) (st : ClientStats) :
    (make_request (.resp status none env d :: rest) st).stats.total_time
      = st.total_time + d ∧
    (make_request (.netErr d1 :: .netErr d2 :: .netErr d3 :: rest) st).stats.total_time
      = st.total_time + d1 + d2 + d3 ∧
    (make_request (.netErr d1 :: .resp status none env d2 :: rest) st).stats.total_time
      = st.total_time + d1 + d2 ∧
    (make_request (.netErr d1 :: .netErr d2 :: .resp status none env d3 :: rest) st).stats.total_time
      = st.total_time + d1 + d2 + d3 ∧
    (make_request (.resp status none envb d :: rest) st).stats.total_time
      = st.total_time + d + d ∧
    (make_request (.resp s4 none env4 d1 :: .resp s4 none env4 d2
        :: .resp s4 none env4 d3 :: rest) st).stats.total_time
      = st.total_time + 2 * (d1 + d2 + d3) := by
  have h9 : ¬ (status = 429) := by omega
  have h4 : ¬ (400 ≤ status) := by omega
  refine ⟨?_, ?_, ?_, ?_, ?_, ?_⟩
  · have hb := body_success (make_request_fuel (rest.length + 1)) status none env d rest st
        h9 h4 hok
    have hmain : make_request (.resp status none env d :: rest) st
        = ⟨⟨st.requests + 1, st.errors, st.total_time + d, st.retries⟩, rest, d,
           .ok (envelopePayload env)⟩ := by
      rw [make_request_def]
      simp only [List.length_cons]
      rw [make_request_fuel_succ]
      exact tenacity_ok _ 2 _ _ _ _ hb rfl
    rw [hmain]
  · rw [make_request_net_error_three]
  · have hb1 := body_netErr (make_request_fuel (rest.length + 1 + 1)) d1
        (.resp status none env d2 :: rest) st
    have hb2 := body_success (make_request_fuel (rest.length + 1 + 1)) status none env d2 rest
        ⟨st.requests + 1, st.errors + 1, st.total_time + d1, st.retries⟩ h9 h4 hok
    have hT2 := tenacity_ok _ 1 _ _ _ _ hb2 rfl
    have hT3 := tenacity_step _ 1 _ _ _ _ _ hb1 rfl rfl hT2
    have hmain : make_request (.netErr d1 :: .resp status none env d2 :: rest) st
        = ⟨⟨st.requests + 1 + 1, st.errors + 1, st.total_time + d1 + d2, st.retries⟩, rest,
           d1 + d2, .ok (envelopePayload env)⟩ := by
      rw [make_request_def]
      simp only [List.length_cons]
      rw [make_request_fuel_succ]
      exact hT3
    rw [hmain]
  · have hb1 := body_netErr (make_request_fuel (rest.length + 1 + 1 + 1)) d1
        (.netErr d2 :: .resp status none env d3 :: rest) st
    have hb2 := body_netErr (make_request_fuel (rest.length + 1 + 1 + 1)) d2
        (.resp status none env d3 :: rest)
        ⟨st.requests + 1, st.errors + 1, st.total_time + d1, st.retries⟩
    have hb3 := body_success (make_request_fuel (rest.length + 1 + 1 + 1)) status none env d3
        rest ⟨st.requests + 1 + 1, st.errors + 1 + 1, st.total_time + d1 + d2, st.retries⟩
        h9 h4 hok
    have hT1 := tenacity_ok _ 0 _ _ _ _ hb3 rfl
    have hT2 := tenacity_step _ 0 _ _ _ _ _ hb2 rfl rfl hT1
    have hT3 := tenacity_step _ 1 _ _ _ _ _ hb1 rfl rfl hT2
    have hmain : make_request (.netErr d1 :: .netErr d2 :: .resp status none env d3 :: rest) st
        = ⟨⟨st.requests + 1 + 1 + 1, st.errors + 1 + 1, st.total_time + d1 + d2 + d3, st.retries⟩,
           rest, d1 + (d2 + d3), .ok (envelopePayload env)⟩ := by
      rw [make_request_def]
      simp only [List.length_cons]
      rw [make_request_fuel_succ]
      exact hT3
    rw [hmain]
  · have hb := body_apiErr (make_request_fuel (rest.length + 1)) status none envb d rest st
        h9 h4 hbad
    have hmain : make_request (.resp status none envb d :: rest) st
        = ⟨⟨st.requests + 1, st.errors + 1, st.total_time + d + d, st.retries⟩, rest, d,
           .error (.runtimeError (("API Error: ")
             ++ envb.errorMessage.getD ("Unknown API error")))⟩ := by
      rw [make_request_def]
      simp only [List.length_cons]
      rw [make_request_fuel_succ]
      exact tenacity_noretry _ 2 _ _ _ _ hb rfl rfl
    rw [hmain]
  · have h49' : ¬ (s4 = 429) := h49
    rw [make_request_http_error_three s4 env4 d1 d2 d3 rest st h44 h49']
    ring

/-- C7 witness: the amended statement at unit durations — one success
counting once, one envelope failure counting twice, and a three-timeout
call counting each attempt once. -/
theorem C7_duration_accumulation_witness :
    ((200 : Nat) < 400 ∧ (400 ≤ 500 ∧ (500 : Nat) ≠ 429)) ∧
    (make_request [.resp 200 none ⟨some true, none, some ("ok")⟩ 1] {}).stats.total_time
      = ({} : ClientStats).total_time + 1 ∧
    (make_request [.resp 200 none ⟨some false, some ("boom"), none⟩ 1] {}).stats.total_time
      = ({} : ClientStats).total_time + 1 + 1 ∧
    (make_request [.netErr 1, .netErr 1, .netErr 1] {}).stats.total_time
      = ({} : ClientStats).total_time + 1 + 1 + 1 :=
  ⟨⟨by decide, by decide, by decide⟩,
   (C7_duration_accumulation 200 (by decide) ⟨some true, none, some ("ok")⟩ (by decide)
      ⟨some false, some ("boom"), none⟩ (by decide) 500 (by decide) (by decide)
      ⟨none, none, none⟩ 1 1 1 1 [] {}).1,
   (C7_duration_accumulation 200 (by decide) ⟨some true, none, some ("ok")⟩ (by decide)
      ⟨some false, some ("boom"), none⟩ (by decide) 500 (by decide) (by decide)
      ⟨none, none, none⟩ 1 1 1 1 [] {}).2.2.2.2.1,
   (C7_duration_accumulation 200 (by decide) ⟨some true, none, some ("ok")⟩ (by decide)
      ⟨some false, some ("boom"), none⟩ (by decide) 500 (by decide) (by decide)
      ⟨none, none, none⟩ 1 1 1 1 [] {}).2.1⟩

/-- C8: a successful HTTP status whose envelope says success false makes
the call raise RuntimeError carrying the envelope error message (or the
generic unknown-error text), incrementing errors by 1 while retries is
unchanged, consuming exactly one attempt with no resubmission. -/
theorem C8_api_error_not_retried (status : Nat) (ra : Option String) (env : Envelope)
    (d : ℚ) (rest : List HttpOutcome) (st : ClientStats)
    (hs : status < 400) (hf : env.success.getD true = false) :
    (make_request (.resp status ra env d :: rest) st).out
      = .error (.runtimeError (("API Error: ") ++ env.errorMessage.getD ("Unknown API error"))) ∧
    (make_request (.resp status ra env d :: rest) st).stats.errors = st.errors + 1 ∧
    (make_request (.resp status ra env d :: rest) st).stats.retries = st.retries ∧
    (make_request (.resp status ra env d :: rest) st).stats.requests = st.requests + 1 ∧
    (make_request (.resp status ra env d :: rest) st).rest = rest := by
  have h429 : ¬ (status = 429) := by omega
  have h400 : ¬ (400 ≤ status) := by omega
  simp [make_request, make_request_fuel, make_request_tenacity, make_request_body,
    exceptBlock, tenacityRetryable, h429, h400, hf]

/-- C8 witness: a 200 response whose envelope reports failure with the
message boom. -/
theorem C8_api_error_not_retried_witness :
    (200 : Nat) < 400 ∧
    (make_request [.resp 200 none ⟨some false, some ("boom"), none⟩ 1] {}).out
      = .error (.runtimeError ("API Error: boom")) ∧
    (make_request [.resp 200 none ⟨some false, some ("boom"), none⟩ 1] {}).stats.errors = 1 ∧
    (make_request [.resp 200 none ⟨some false, some ("boom"), none⟩ 1] {}).stats.retries = 0 :=
  ⟨by decide,
   ((C8_api_error_not_retried 200 none ⟨some false, some ("boom"), none⟩ 1 [] {}
      (by decide) rfl).1),
   ((C8_api_error_not_retried 200 none ⟨some false, some ("boom"), none⟩ 1 [] {}
      (by decide) rfl).2.1),
   ((C8_api_error_not_retried 200 none ⟨some false, some ("boom"), none⟩ 1 [] {}
      (by decide) rfl).2.2.1)⟩
